import Mathlib

/-!
Verification of the conversational-agent microservice (Python/FastAPI).

This file gives a shallow embedding in Lean 4 of the control-flow core of the
repository and proves the behavioural properties stated in the design spec:

* the follow-up analysis pipeline (`app/api/seguimiento.py`,
  `app/services/openai_service.py`): JSON-contract enforcement, escalation
  overrides and the fallback path;
* the session store and the `process_message` entry point
  (`app/services/agent_service.py`, `app/utils/helpers.py`);
* the tool catalog (`app/tools/backend_tools.py`) together with a model of its
  backend gateway (`app/utils/http_client.py`);
* a spec-level model of the rolling memory window and the bounded tool-calling
  loop, whose implementations live in the third-party langchain library and
  are therefore not part of the repository sources.

Conventions of the embedding:

* Python exceptions are `Except`: a function that can raise returns
  `Except E A`; a `try/except` around a block becomes a `match` on that value.
* Nondeterministic effects (the LLM provider call, `uuid.uuid4()` generation,
  backend HTTP calls) are passed in as explicit arguments, so every function
  here is a pure, executable Lean function.
* Python `str` is `String`; Python floats appearing in the pipeline are exact
  decimal constants (0.5, bounds 0 and 1), modelled as `ℚ` (`mkRat`).
* Insignificant whitespace produced by Python triple-quoted f-strings (and the
  trailing `.strip()` of those templates) is normalised; no property below
  depends on exact whitespace of a rendered message.
-/

deriving instance DecidableEq for Except

/-! ## Follow-up analysis pipeline: data model (`app/api/seguimiento.py`) -/

/-- `RespuestaPaciente` (seguimiento.py): the patient's self-reported response. -/
structure RespuestaPaciente where
  estado_paciente : String
  sintomas_reportados : Option String
  observaciones_paciente : Option String
  necesita_revision : Bool
deriving DecidableEq

/-- `SeguimientoData` (seguimiento.py): one follow-up survey. -/
structure SeguimientoData where
  seguimiento_id : Int
  paciente_nombre : String
  tipo_tratamiento : String
  dias_desde_tratamiento : Int
  respuesta : RespuestaPaciente
deriving DecidableEq

/-- `AnalisisResultado` (seguimiento.py): the pydantic model of a finalized
analysis result.  `probabilidad_complicacion` is constrained to [0,1] by the
pydantic field (`ge=0, le=1`); that constraint is enforced by
`AnalisisResultado.validate` below, not by this structure. -/
structure AnalisisResultado where
  nivel_urgencia : String
  requiere_atencion : Bool
  sentimiento_general : String
  sintomas_detectados : List String
  recomendacion : String
  resumen : String
  probabilidad_complicacion : ℚ
  necesita_cita_urgente : Bool
deriving DecidableEq

/-- A JSON object as `json.loads` hands it to `parsear_respuesta_ia`, restricted
to the analysis fields.  Each field is `none` when the key is absent.  (A JSON
object whose field has the wrong primitive type also fails pydantic validation;
the claims below only quantify over objects the code accepts or need a single
failing instance, so the well-typed-or-absent subspace suffices.) -/
structure AnalisisDict where
  nivel_urgencia : Option String := none
  requiere_atencion : Option Bool := none
  sentimiento_general : Option String := none
  sintomas_detectados : Option (List String) := none
  recomendacion : Option String := none
  resumen : Option String := none
  probabilidad_complicacion : Option ℚ := none
  necesita_cita_urgente : Option Bool := none
deriving DecidableEq

/-- A pydantic `ValidationError` raised by `AnalisisResultado(**analisis_dict)`:
either a required field is missing, or `probabilidad_complicacion` violates
`ge=0, le=1`.  The error payload text is irrelevant to every claim. -/
inductive ValidationError where
  | missingField
  | outOfRange
deriving DecidableEq

/-- `AnalisisResultado(**analisis_dict)` (pydantic construction):
all fields except `sintomas_detectados` are required (`...`);
`sintomas_detectados` defaults to `[]` (`default_factory=list`);
`probabilidad_complicacion` must lie in [0,1]. -/
def AnalisisResultado.validate (d : AnalisisDict) : Except ValidationError AnalisisResultado :=
  match d.nivel_urgencia, d.requiere_atencion, d.sentimiento_general,
        d.recomendacion, d.resumen, d.probabilidad_complicacion,
        d.necesita_cita_urgente with
  | some nu, some ra, some sg, some rc, some rs, some pc, some nc =>
      if pc < 0 ∨ 1 < pc then .error .outOfRange
      else .ok { nivel_urgencia := nu
                 requiere_atencion := ra
                 sentimiento_general := sg
                 sintomas_detectados := d.sintomas_detectados.getD []
                 recomendacion := rc
                 resumen := rs
                 probabilidad_complicacion := pc
                 necesita_cita_urgente := nc }
  | _, _, _, _, _, _, _ => .error .missingField

/-- The raw string handed to `json.loads`: either it fails to parse
(`json.JSONDecodeError`), or it parses to a JSON object with the analysis
fields as in `AnalisisDict`. -/
inductive RawLLM where
  | invalidJson (s : String)
  | validJson (d : AnalisisDict)
deriving DecidableEq

/-- The condition `data.respuesta.sintomas_reportados and
len(data.respuesta.sintomas_reportados) > 50` (seguimiento.py line 226):
Python truthiness makes `None` and `""` falsy, and `"".length > 50` is false
anyway. -/
def sintomas_largos (r : RespuestaPaciente) : Bool :=
  match r.sintomas_reportados with
  | some s => 50 < s.length
  | none => false

/-- `parsear_respuesta_ia` (seguimiento.py lines 207-245).  The `try` block
parses the JSON, applies the two escalation overrides in source order, and
validates via `AnalisisResultado(**analisis_dict)` — a pydantic
`ValidationError` there is NOT caught (only `json.JSONDecodeError` is).  The
`except json.JSONDecodeError` branch returns the conservative fallback whose
`necesita_cita_urgente` copies the survey's `necesita_revision` flag. -/
def parsear_respuesta_ia (respuesta_ia : RawLLM) (data : SeguimientoData) :
    Except ValidationError AnalisisResultado :=
  match respuesta_ia with
  | .validJson d0 =>
      let d1 :=
        if data.respuesta.estado_paciente = "mal" ∧ d0.nivel_urgencia = some "bajo" then
          { d0 with nivel_urgencia := some "medio", requiere_atencion := some true }
        else d0
      let d2 :=
        if sintomas_largos data.respuesta ∧ d1.nivel_urgencia = some "bajo" then
          { d1 with requiere_atencion := some true }
        else d1
      AnalisisResultado.validate d2
  | .invalidJson _ =>
      .ok { nivel_urgencia := "medio"
            requiere_atencion := true
            sentimiento_general := "neutral"
            sintomas_detectados := ["Requiere revisión manual"]
            recomendacion := "Por favor, revisa manualmente esta respuesta. El análisis automático no pudo completarse."
            resumen := "Paciente " ++ data.paciente_nombre ++ " reportó estado: " ++ data.respuesta.estado_paciente
            probabilidad_complicacion := mkRat 1 2
            necesita_cita_urgente := data.respuesta.necesita_revision }

/-! ## LLM service layer (`app/services/openai_service.py`) -/

/-- `OpenAIService._get_fallback_response` (openai_service.py lines 98-112),
after the `json.dumps`/`json.loads` round trip it undergoes before reaching
`parsear_respuesta_ia`.  Note `necesita_cita_urgente` is the constant `False`
here — this fallback does not see the survey. -/
def get_fallback_response (paciente_nombre : String) : AnalisisDict :=
  { nivel_urgencia := some "medio"
    requiere_atencion := some true
    sentimiento_general := some "neutral"
    sintomas_detectados := some ["Requiere revisión manual"]
    recomendacion := some "Por favor, contacta al paciente para revisar su respuesta manualmente. El análisis automático no pudo completarse."
    resumen := some ("Análisis automático falló para " ++ paciente_nombre ++ ". Requiere revisión manual.")
    probabilidad_complicacion := some (mkRat 1 2)
    necesita_cita_urgente := some false }

/-- Outcome of the provider call
`self.client.chat.completions.create(...)` plus content extraction:
either it raises (network error, API error, ...), or it yields a content
string, which is either valid or invalid JSON. -/
inductive ProviderOutcome where
  | success (content : RawLLM)
  | failure (e : String)
deriving DecidableEq

/-- `OpenAIService.analizar_seguimiento_post_tratamiento`
(openai_service.py lines 28-96).  On a successful provider call it checks
`json.loads(content)`: invalid JSON is caught (`except json.JSONDecodeError`)
and replaced by `_get_fallback_response`.  Any other exception is re-raised
(`except Exception as e: ... raise`). -/
def analizar_seguimiento_post_tratamiento (outcome : ProviderOutcome)
    (paciente_nombre : String) : Except String RawLLM :=
  match outcome with
  | .success content =>
      match content with
      | .validJson d => .ok (.validJson d)
      | .invalidJson _ => .ok (.validJson (get_fallback_response paciente_nombre))
  | .failure e => .error e

/-- The exception caught by the `except Exception` handler of the analysis
endpoint: either the re-raised provider exception, or the pydantic
`ValidationError` escaping `parsear_respuesta_ia`.  The endpoint embeds
`str(e)` in the HTTP 500 detail; the rendering of the message is irrelevant
to the claims, so the detail carries the exception itself. -/
inductive PyError where
  | providerError (msg : String)
  | validationError (v : ValidationError)
deriving DecidableEq

/-- The HTTP-level result of `POST /analizar-respuesta`. -/
inductive EndpointResult where
  | ok (analisis : AnalisisResultado)
  | httpError (status : Nat) (detail : PyError)
deriving DecidableEq

/-- `analizar_respuesta_seguimiento` (seguimiento.py lines 84-148): calls the
service, parses, and converts any exception escaping the `try` block into
`HTTPException(status_code=500, ...)`.  The background webhook dispatch fires
only on success and never affects the synchronous result; it is not modelled. -/
def analizar_respuesta_seguimiento (data : SeguimientoData) (outcome : ProviderOutcome) :
    EndpointResult :=
  match analizar_seguimiento_post_tratamiento outcome data.paciente_nombre with
  | .error e => .httpError 500 (.providerError e)
  | .ok resultado_ia =>
      match parsear_respuesta_ia resultado_ia data with
      | .ok analisis => .ok analisis
      | .error v => .httpError 500 (.validationError v)

/-! ## Session store and agent service (`app/services/agent_service.py`) -/

/-- `MessageRole` (app/models/schemas.py). -/
inductive MessageRole where
  | user
  | assistant
  | system
deriving DecidableEq

/-- `ChatMessage` (app/models/schemas.py), without the wall-clock timestamp
and free-form metadata, which no claim observes. -/
structure ChatMessage where
  role : MessageRole
  content : String
deriving DecidableEq

/-- Modelled from the spec: `ConversationBufferWindowMemory` is langchain
library code, absent from the repository sources; §4.1 of the spec describes
the rolling memory buffer as "a queue capped at N entries: when full, the
oldest entry is evicted before the new one is pushed".  `k` is the configured
window size (`settings.CONVERSATION_HISTORY_LIMIT`, default 20). -/
def memoryPush (k : Nat) (buf : List ChatMessage) (m : ChatMessage) : List ChatMessage :=
  if buf.length < k then buf ++ [m] else buf.drop 1 ++ [m]

/-- `ConversationSession` (agent_service.py lines 18-48): message history,
rolling memory buffer, free-form metadata. -/
structure ConversationSession where
  session_id : String
  user_id : Option Int
  messages : List ChatMessage
  metadata : List (String × String)
  memory : List ChatMessage
deriving DecidableEq

/-- `ConversationSession.__init__`: a fresh session has empty history, empty
metadata and an empty memory buffer. -/
def newConversationSession (session_id : String) (user_id : Option Int) :
    ConversationSession :=
  { session_id := session_id
    user_id := user_id
    messages := []
    metadata := []
    memory := [] }

/-- `ConversationSession.add_message` (agent_service.py lines 39-48): append to
the history; push user messages and assistant messages (but not system
messages) into the rolling memory buffer. -/
def ConversationSession.add_message (k : Nat) (s : ConversationSession)
    (role : MessageRole) (content : String) : ConversationSession :=
  let message : ChatMessage := { role := role, content := content }
  { s with
    messages := s.messages ++ [message]
    memory :=
      if role = MessageRole.user then memoryPush k s.memory message
      else if role = MessageRole.assistant then memoryPush k s.memory message
      else s.memory }

/-- The `self.sessions: Dict[str, ConversationSession]` table of `AgentService`,
as an insertion-ordered association list (the order of a Python dict). -/
structure AgentState where
  sessions : List (String × ConversationSession)
deriving DecidableEq

/-- `self.sessions[sid]` lookup (first and only binding of a dict key). -/
def lookupSession (sessions : List (String × ConversationSession)) (sid : String) :
    Option ConversationSession :=
  match sessions with
  | [] => none
  | (key, v) :: rest => if key = sid then some v else lookupSession rest sid

/-- Replace the binding of `sid` (Python mutates the stored session object in
place; the dict keeps pointing at it). -/
def updateSession (sessions : List (String × ConversationSession)) (sid : String)
    (sess : ConversationSession) : List (String × ConversationSession) :=
  sessions.map (fun p => if p.1 = sid then (p.1, sess) else p)

/-- The `if not session_id: session_id = generate_session_id()` step
(agent_service.py lines 304-305): Python truthiness makes both `None` and the
empty string fall back to the generated id.  `generate_session_id()`
(app/utils/helpers.py lines 10-17) returns `str(uuid.uuid4())`; the drawn
uuid is the explicit argument `gen`. -/
def resolve_session_id (session_id : Option String) (gen : String) : String :=
  match session_id with
  | none => gen
  | some s => if s = "" then gen else s

/-- `AgentService.get_or_create_session` (agent_service.py lines 289-310):
resolve the id (generating one only when the argument is falsy), then insert a
fresh empty session if the resolved id is unknown, else return the stored
session unchanged. -/
def get_or_create_session (st : AgentState) (session_id : Option String)
    (user_id : Option Int) (gen : String) : AgentState × ConversationSession :=
  let sid := resolve_session_id session_id gen
  match lookupSession st.sessions sid with
  | some sess => (st, sess)
  | none =>
      let sess := newConversationSession sid user_id
      ({ sessions := st.sessions ++ [(sid, sess)] }, sess)

/-- The metadata map of the `process_message` result: message count and user
id on success, the stringified exception under the `"error"` key on failure. -/
inductive ProcessMetadata where
  | stats (message_count : Nat) (user_id : Option Int)
  | failure (error : String)
deriving DecidableEq

/-- The dict returned by `process_message`. -/
structure ProcessResult where
  message : String
  session_id : String
  metadata : ProcessMetadata
deriving DecidableEq

/-- The input-enrichment step of `process_message` (agent_service.py lines
344-350): prefix a user-id tag when `user_id` is truthy (Python: `0` is
falsy), then prefix the rendered user-context lines when the context dict is
truthy (non-empty). -/
def build_input_message (message : String) (user_id : Option Int)
    (user_context : Option (List (String × String))) : String :=
  let input1 :=
    match user_id with
    | some uid => if uid ≠ 0 then "[ID Usuario: " ++ toString uid ++ "]\n" ++ message else message
    | none => message
  match user_context with
  | some ctx =>
      if ctx ≠ [] then
        "Contexto:\n" ++ String.intercalate "\n" (ctx.map (fun p => p.1 ++ ": " ++ p.2))
          ++ "\n\n" ++ input1
      else input1
  | none => input1

/-- `AgentService.process_message` (agent_service.py lines 312-390).
`run` is the `await self.agent.ainvoke(agent_input)` boundary: it receives the
enriched input and the rendered memory window, and either raises (`.error`) or
returns the response dict, of which only the optional `"output"` entry is
read.  `gen` and `gen2` are the two possible `generate_session_id()` draws
(one in `get_or_create_session`, one in the `except` branch).  The whole body
is a single `try`; the only raising step inside it is the `ainvoke` call, so
the `except Exception` branch sees the state as updated up to the user-message
append. -/
def process_message (k : Nat) (st : AgentState) (message : String)
    (session_id : Option String) (user_id : Option Int)
    (user_context : Option (List (String × String)))
    (gen gen2 : String)
    (run : String → List ChatMessage → Except String (Option String)) :
    AgentState × ProcessResult :=
  let stsess := get_or_create_session st session_id user_id gen
  let sess1 := stsess.2.add_message k MessageRole.user message
  let st2 : AgentState := { sessions := updateSession stsess.1.sessions sess1.session_id sess1 }
  let input_message := build_input_message message user_id user_context
  match run input_message sess1.memory with
  | .ok out =>
      let response_text := out.getD "Lo siento, no pude procesar tu mensaje."
      let sess2 := sess1.add_message k MessageRole.assistant response_text
      let st3 : AgentState := { sessions := updateSession st2.sessions sess2.session_id sess2 }
      (st3,
       { message := response_text
         session_id := sess2.session_id
         metadata := .stats sess2.messages.length user_id })
  | .error e =>
      (st2,
       { message := "Lo siento, ocurrió un error al procesar tu mensaje. Por favor, intenta de nuevo."
         session_id := resolve_session_id session_id gen2
         metadata := .failure e })

/-! ## The bounded tool-calling loop (spec model)

`AgentExecutor` with `max_iterations=settings.AGENT_MAX_ITERATIONS` (default
10) is langchain library code, absent from the repository sources
(`AgentService._create_agent`, agent_service.py lines 266-287, only
configures it).  The loop is modelled from §4.2 of the spec: each round
invokes the LLM, which either emits a final textual answer (terminating the
loop) or tool invocations (re-entering reasoning); when the iteration cap is
reached the loop "falls back to a default apology text" instead of raising. -/

/-- One LLM reasoning round: either a final plain-text answer or a batch of
tool invocations to execute and fold back. -/
inductive LLMStep where
  | finalAnswer (text : String)
  | toolCalls (names : List String)

/-- Modelled from the spec (§4.2): the apology fallback produced when the
iteration cap is hit, matching the default text `process_message` substitutes
for a missing output. -/
def agentFallbackText : String := "Lo siento, no pude procesar tu mensaje."

/-- Modelled from the spec (§4.2): the reasoning loop.  `llm i` is the LLM's
emission on round `i`; the second argument is the remaining iteration budget.
Returns the reply text together with the number of LLM rounds performed. -/
def agentLoopGo (llm : Nat → LLMStep) : Nat → Nat → String × Nat
  | _, 0 => (agentFallbackText, 0)
  | i, fuel + 1 =>
      match llm i with
      | .finalAnswer t => (t, 1)
      | .toolCalls _ =>
          let r := agentLoopGo llm (i + 1) fuel
          (r.1, r.2 + 1)

/-- Modelled from the spec (§4.2): run the loop with the configured iteration
cap (`maxIterations = settings.AGENT_MAX_ITERATIONS`). -/
def agentLoop (llm : Nat → LLMStep) (maxIterations : Nat) : String × Nat :=
  agentLoopGo llm 0 maxIterations

/-! ## Tool catalog (`app/tools/backend_tools.py`) and backend gateway
(`app/utils/http_client.py`)

Each tool's `_arun` wraps its whole body in `try/except Exception`, rendering
any failure as an emoji-prefixed error string, so a tool always returns text.
The backend gateway `_make_request` raises a plain `Exception` for transport
errors and non-2xx statuses and otherwise returns the decoded JSON body; a
tool therefore sees each `backend_client` method as `Except PyExc JVal`.
The `_run` wrappers (`asyncio.run(self._arun(...))`) add nothing and are not
modelled separately. -/

/-- A decoded JSON value as returned by `response.json()`. -/
inductive JVal where
  | null
  | jbool (b : Bool)
  | jnum (n : Int)
  | jstr (s : String)
  | jarr (xs : List JVal)
  | jobj (fields : List (String × JVal))

/-- A Python exception as observed by a tool's `except` handler.  `str(e)`
rendering of non-backend exceptions is abbreviated; no claim depends on the
precise wording. -/
inductive PyExc where
  | backendError (msg : String)
  | attributeError (msg : String)
  | keyError (k : String)
  | typeError (msg : String)
deriving DecidableEq

/-- `str(e)` as embedded into the tools' f-strings. -/
def pyStr : PyExc → String
  | .backendError m => m
  | .attributeError m => m
  | .keyError k => k
  | .typeError m => m

/-- First binding of a key in a JSON object (keys of a decoded JSON object are
unique). -/
def assocFind (fields : List (String × JVal)) (k : String) : Option JVal :=
  match fields with
  | [] => none
  | (key, v) :: rest => if key = k then some v else assocFind rest k

/-- Python truthiness of a JSON value (`None`, `False`, `0`, `""`, `[]` and
empty objects are falsy). -/
def JVal.truthy : JVal → Bool
  | .null => false
  | .jbool b => b
  | .jnum n => n ≠ 0
  | .jstr s => s ≠ ""
  | .jarr xs => ¬ xs.isEmpty
  | .jobj fields => ¬ fields.isEmpty

/-- `j.get(k)`: defaults to `None`; raises `AttributeError` when `j` is not a
dict. -/
def JVal.dictGet (j : JVal) (k : String) : Except PyExc JVal :=
  match j with
  | .jobj fields => .ok ((assocFind fields k).getD .null)
  | _ => .error (.attributeError "get")

/-- `j.get(k, d)`: with an explicit default. -/
def JVal.dictGetD (j : JVal) (k : String) (d : JVal) : Except PyExc JVal :=
  match j with
  | .jobj fields => .ok ((assocFind fields k).getD d)
  | _ => .error (.attributeError "get")

/-- `j[k]` subscription: raises `KeyError` when the key is absent and
`TypeError` when `j` is not a dict (string/list subscription by a string key
also raises `TypeError`). -/
def JVal.item (j : JVal) (k : String) : Except PyExc JVal :=
  match j with
  | .jobj fields =>
      match assocFind fields k with
      | some v => .ok v
      | none => .error (.keyError k)
  | _ => .error (.typeError "subscript")

/-- `len(j)`: defined for sized values, `TypeError` otherwise. -/
def JVal.pyLen : JVal → Except PyExc Nat
  | .jarr xs => .ok xs.length
  | .jobj fields => .ok fields.length
  | .jstr s => .ok s.length
  | _ => .error (.typeError "len")

/-- Iteration (`for x in j`): lists yield elements, strings yield their
characters, dicts yield their keys; other values raise `TypeError`. -/
def JVal.toSeq : JVal → Except PyExc (List JVal)
  | .jarr xs => .ok xs
  | .jstr s => .ok (s.data.map (fun c => .jstr (String.mk [c])))
  | .jobj fields => .ok (fields.map (fun p => .jstr p.1))
  | _ => .error (.typeError "iter")

/-- `j[:n]` slicing: lists and strings support it (a sliced string is iterated
as its characters), other values raise `TypeError`. -/
def JVal.pySlice (j : JVal) (n : Nat) : Except PyExc (List JVal) :=
  match j with
  | .jarr xs => .ok (xs.take n)
  | .jstr s => .ok ((s.data.take n).map (fun c => JVal.jstr (String.mk [c])))
  | _ => .error (.typeError "slice")

/-- `j.upper()`: string method; `AttributeError` otherwise. -/
def JVal.upper : JVal → Except PyExc String
  | .jstr s => .ok s.toUpper
  | _ => .error (.attributeError "upper")

/-- The value as rendered inside an f-string (`str(j)`).  The `repr` of nested
containers is abbreviated; no claim depends on it. -/
def pyShow : JVal → String
  | .null => "None"
  | .jbool true => "True"
  | .jbool false => "False"
  | .jnum n => toString n
  | .jstr s => s
  | .jarr _ => "[...]"
  | .jobj _ => "\x7b...\x7d"

/-- Python truthiness of an `Optional[int]` argument (`None` and `0` falsy). -/
def optIntTruthy : Option Int → Bool
  | some n => n ≠ 0
  | none => false

/-- Python truthiness of an `Optional[str]` argument (`None` and `""` falsy). -/
def optStrTruthy : Option String → Bool
  | some s => s ≠ ""
  | none => false

/-- `BuscarPacienteInput` (backend_tools.py). -/
structure BuscarPacienteInput where
  dni : Option String := none
  paciente_id : Option Int := none
  nombre : Option String := none

/-- `ConsultarCitasInput` (backend_tools.py). -/
structure ConsultarCitasInput where
  paciente_id : Option Int := none
  medico_id : Option Int := none
  estado : Option String := none

/-- `ConsultarHistorialInput` (backend_tools.py). -/
structure ConsultarHistorialInput where
  paciente_id : Int

/-- `ConsultarDisponibilidadInput` (backend_tools.py). -/
structure ConsultarDisponibilidadInput where
  medico_id : Int
  fecha : String

/-- `ListarMedicosInput` (backend_tools.py). -/
structure ListarMedicosInput where
  especialidad : Option String := none

/-- `DeterminarTipoUsuarioInput` (backend_tools.py). -/
structure DeterminarTipoUsuarioInput where
  id_usuario : Int

/-- `SugerirHorariosInput` (backend_tools.py); `duracion_minutos` and `limite`
carry pydantic defaults 60 and 3. -/
structure SugerirHorariosInput where
  id_medico : Int
  fecha_inicio : String
  fecha_fin : Option String := none
  duracion_minutos : Option Int := some 60
  limite : Option Int := some 3

/-- `RegistrarCitaInput` (backend_tools.py). -/
structure RegistrarCitaInput where
  id_usuario : Int
  id_medico : Int
  fecha_hora_inicio : String
  fecha_hora_fin : String
  motivo : Option String := none
  tipo_cita : Option String := none
  notas : Option String := none

/-- `ConfirmarCitaInput` (backend_tools.py). -/
structure ConfirmarCitaInput where
  id_cita : Int

/-- `RegistrarInteraccionInput` (backend_tools.py). -/
structure RegistrarInteraccionInput where
  id_usuario : Int
  tipo_intencion : Option String := none
  entrada_usuario : Option String := none
  respuesta_ia : Option String := none
  estado_resultado : Option String := none
  contexto : Option JVal := none

/-- The `backend_client` methods the tools invoke (http_client.py), identified
by method and arguments.  Each is one `_make_request` round trip. -/
inductive BackendMethod where
  | get_paciente (paciente_id : Int)
  | buscar_paciente_por_dni (dni : String)
  | get_pacientes (limit : Int) (search : Option String)
  | get_citas_paciente (paciente_id : Int) (estado : Option String)
  | get_citas_medico (medico_id : Int)
  | get_historial_resumen (paciente_id : Int)
  | get_disponibilidad_medico (medico_id : Int) (fecha : String)
  | get_medicos (especialidad : Option String)
  | get_medico (medico_id : Int)
  | determinar_tipo_usuario (id_usuario : Int)
  | sugerir_horarios (id_medico : Int) (fecha_inicio : String) (fecha_fin : Option String)
      (duracion_minutos : Option Int) (limite : Option Int)
  | registrar_cita (id_usuario : Int) (id_medico : Int) (fecha_hora_inicio : String)
      (fecha_hora_fin : String) (motivo : Option String) (tipo_cita : Option String)
      (notas : Option String)
  | confirmar_cita (id_cita : Int)
  | registrar_interaccion (id_usuario : Int) (tipo_intencion : Option String)
      (entrada_usuario : Option String) (respuesta_ia : Option String)
      (estado_resultado : Option String) (contexto : Option JVal)

/-- One run's backend behaviour: the JSON body a call returns, or the
`Exception` `_make_request` raises (uniform transport/status error). -/
def BackendEnv : Type := BackendMethod → Except PyExc JVal

/-- The per-patient block of `BuscarPacienteTool._arun`'s success branch
(f-string with `.get` defaults, whitespace normalised). -/
def pacienteInfoStr (paciente : JVal) : Except PyExc String := do
  let nombres ← paciente.dictGetD "nombres" (.jstr "")
  let apellidos ← paciente.dictGetD "apellidos" (.jstr "")
  let dni ← paciente.dictGetD "dni" (.jstr "No registrado")
  let edad ← paciente.dictGetD "edad" (.jstr "No disponible")
  let telefono ← paciente.dictGetD "telefono" (.jstr "No registrado")
  let alergias ← paciente.dictGetD "alergias" (.jstr "Ninguna registrada")
  let grupo ← paciente.dictGetD "grupo_sanguineo" (.jstr "No registrado")
  pure ("✅ Paciente encontrado:\n- Nombre: " ++ pyShow nombres ++ " " ++ pyShow apellidos
    ++ "\n- DNI: " ++ pyShow dni
    ++ "\n- Edad: " ++ pyShow edad ++ " años"
    ++ "\n- Teléfono: " ++ pyShow telefono
    ++ "\n- Alergias: " ++ pyShow alergias
    ++ "\n- Grupo sanguíneo: " ++ pyShow grupo)

/-- Body of `BuscarPacienteTool._arun` (backend_tools.py lines 73-113): the
part inside the `try` block. -/
def buscarPacienteBody (env : BackendEnv) (a : BuscarPacienteInput) : Except PyExc String :=
  if optIntTruthy a.paciente_id then
    env (.get_paciente (a.paciente_id.getD 0)) >>= buscarPacienteRender
  else if optStrTruthy a.dni then
    env (.buscar_paciente_por_dni (a.dni.getD "")) >>= buscarPacienteRender
  else if optStrTruthy a.nombre then
    env (.get_pacientes 5 a.nombre) >>= buscarPacienteRender
  else
    .ok "❌ Debes proporcionar al menos un criterio de búsqueda (DNI, ID o nombre)"
where
  /-- Lines 92-113: unwrap the response, take the first element of a list
  result, and format. -/
  buscarPacienteRender (result : JVal) : Except PyExc String := do
    let success ← result.dictGet "success"
    let datav ← result.dictGet "data"
    if success.truthy && datav.truthy then
      match datav with
      | .jarr [] => pure "❌ No se encontró ningún paciente con ese criterio"
      | .jarr (p :: _) => pacienteInfoStr p
      | p => pacienteInfoStr p
    else
      pure "❌ No se encontró el paciente solicitado"

/-- `BuscarPacienteTool._arun` (lines 73-117): `try` body plus the
`except Exception` rendering. -/
def buscar_paciente_arun (env : BackendEnv) (a : BuscarPacienteInput) : String :=
  match buscarPacienteBody env a with
  | .ok s => s
  | .error e => "❌ Error al buscar paciente: " ++ pyStr e

/-- One formatted appointment line of `ConsultarCitasTool._arun`
(lines 167-174), at 1-based index `i`. -/
def citaLineStr (i : Nat) (cita : JVal) : Except PyExc String := do
  let idCita ← cita.dictGet "id_cita"
  let fecha ← cita.dictGetD "fecha_hora_inicio" (.jstr "No disponible")
  let medico ← cita.dictGetD "medico" (.jobj [])
  let medicoNombres ← medico.dictGetD "nombres" (.jstr "")
  let medicoApellidos ← medico.dictGetD "apellidos" (.jstr "")
  let motivo ← cita.dictGetD "motivo" (.jstr "No especificado")
  let estado ← cita.dictGetD "estado" (.jstr "pendiente")
  let estadoMayus ← estado.upper
  pure (toString i ++ ". Cita #" ++ pyShow idCita
    ++ "\n   - Fecha: " ++ pyShow fecha
    ++ "\n   - Médico: Dr(a). " ++ pyShow medicoNombres ++ " " ++ pyShow medicoApellidos
    ++ "\n   - Motivo: " ++ pyShow motivo
    ++ "\n   - Estado: " ++ estadoMayus)

/-- Body of `ConsultarCitasTool._arun` (lines 142-181). -/
def consultarCitasBody (env : BackendEnv) (a : ConsultarCitasInput) : Except PyExc String :=
  if optIntTruthy a.paciente_id then
    env (.get_citas_paciente (a.paciente_id.getD 0) a.estado) >>= consultarCitasRender
  else if optIntTruthy a.medico_id then
    env (.get_citas_medico (a.medico_id.getD 0)) >>= consultarCitasRender
  else
    .ok "❌ Debes proporcionar al menos un ID de paciente o médico"
where
  /-- Lines 159-181: header, at most five formatted lines, overflow note. -/
  consultarCitasRender (result : JVal) : Except PyExc String := do
    let success ← result.dictGet "success"
    let datav ← result.dictGet "data"
    if success.truthy && datav.truthy then do
      let citas ← result.item "data"
      if ¬ citas.truthy then
        pure "ℹ️ No hay citas registradas con esos criterios"
      else do
        let n ← citas.pyLen
        if n = 0 then
          pure "ℹ️ No hay citas registradas con esos criterios"
        else do
          let citasShown ← citas.pySlice 5
          let lineas ← citasShown.enum.mapM (fun p => citaLineStr (p.1 + 1) p.2)
          let info := "✅ Se encontraron " ++ toString n ++ " citas:\n\n"
            ++ String.intercalate "\n" lineas
          pure (if 5 < n then info ++ "\n... y " ++ toString (n - 5) ++ " citas más" else info)
    else
      pure "ℹ️ No se encontraron citas"

/-- `ConsultarCitasTool._arun` (lines 142-185). -/
def consultar_citas_arun (env : BackendEnv) (a : ConsultarCitasInput) : String :=
  match consultarCitasBody env a with
  | .ok s => s
  | .error e => "❌ Error al consultar citas: " ++ pyStr e

/-- Body of `ConsultarHistorialTool._arun` (lines 205-230). -/
def consultarHistorialBody (env : BackendEnv) (a : ConsultarHistorialInput) :
    Except PyExc String := do
  let result ← env (.get_historial_resumen a.paciente_id)
  let success ← result.dictGet "success"
  let datav ← result.dictGet "data"
  if success.truthy && datav.truthy then do
    let historial ← result.item "data"
    let total ← historial.dictGetD "total_consultas" (.jnum 0)
    let ultima ← historial.dictGetD "ultima_consulta" (.jstr "No disponible")
    let activos ← historial.dictGetD "tratamientos_activos" (.jnum 0)
    let alergias ← historial.dictGetD "alergias" (.jstr "Ninguna")
    let diagnosticos ← historial.dictGetD "diagnosticos_recientes" (.jstr "No hay diagnósticos recientes")
    let notas ← historial.dictGetD "notas_importantes" (.jstr "Sin notas especiales")
    pure ("✅ Resumen del Historial Clínico:\n- Total de consultas: " ++ pyShow total
      ++ "\n- Última consulta: " ++ pyShow ultima
      ++ "\n- Tratamientos activos: " ++ pyShow activos
      ++ "\n- Alergias conocidas: " ++ pyShow alergias
      ++ "\n\nDiagnósticos recientes:\n" ++ pyShow diagnosticos
      ++ "\n\nNotas importantes:\n" ++ pyShow notas)
  else
    pure "ℹ️ No hay historial clínico registrado para este paciente"

/-- `ConsultarHistorialTool._arun` (lines 205-234). -/
def consultar_historial_arun (env : BackendEnv) (a : ConsultarHistorialInput) : String :=
  match consultarHistorialBody env a with
  | .ok s => s
  | .error e => "❌ Error al consultar historial: " ++ pyStr e

/-- Body of `ConsultarDisponibilidadTool._arun` (lines 254-274). -/
def consultarDisponibilidadBody (env : BackendEnv) (a : ConsultarDisponibilidadInput) :
    Except PyExc String := do
  let result ← env (.get_disponibilidad_medico a.medico_id a.fecha)
  let success ← result.dictGet "success"
  let datav ← result.dictGet "data"
  if success.truthy && datav.truthy then do
    let disponibilidad ← result.item "data"
    let horarios ← disponibilidad.dictGetD "horarios_disponibles" (.jarr [])
    if ¬ horarios.truthy then
      pure ("ℹ️ No hay horarios disponibles para el " ++ a.fecha)
    else do
      let hs ← horarios.toSeq
      pure ("✅ Horarios disponibles para el " ++ a.fecha ++ ":\n\n"
        ++ String.intercalate "\n" (hs.map (fun h => "- " ++ pyShow h)))
  else
    pure ("ℹ️ No hay disponibilidad para el " ++ a.fecha)

/-- `ConsultarDisponibilidadTool._arun` (lines 254-278). -/
def consultar_disponibilidad_arun (env : BackendEnv) (a : ConsultarDisponibilidadInput) :
    String :=
  match consultarDisponibilidadBody env a with
  | .ok s => s
  | .error e => "❌ Error al consultar disponibilidad: " ++ pyStr e

/-- One formatted doctor line of `ListarMedicosTool._arun` (lines 313-317). -/
def medicoLineStr (i : Nat) (medico : JVal) : Except PyExc String := do
  let nombres ← medico.dictGetD "nombres" (.jstr "")
  let apellidos ← medico.dictGetD "apellidos" (.jstr "")
  let especialidad ← medico.dictGetD "especialidad" (.jstr "General")
  let colegiatura ← medico.dictGetD "colegiatura" (.jstr "No disponible")
  pure (toString i ++ ". Dr(a). " ++ pyShow nombres ++ " " ++ pyShow apellidos
    ++ "\n   - Especialidad: " ++ pyShow especialidad
    ++ "\n   - Colegiatura: " ++ pyShow colegiatura)

/-- Body of `ListarMedicosTool._arun` (lines 298-321). -/
def listarMedicosBody (env : BackendEnv) (a : ListarMedicosInput) : Except PyExc String := do
  let result ← env (.get_medicos a.especialidad)
  let success ← result.dictGet "success"
  let datav ← result.dictGet "data"
  if success.truthy && datav.truthy then do
    let medicos ← result.item "data"
    if ¬ medicos.truthy then
      pure "ℹ️ No hay médicos registrados"
    else do
      let n ← medicos.pyLen
      if n = 0 then
        pure "ℹ️ No hay médicos registrados"
      else do
        let ms ← medicos.toSeq
        let lineas ← ms.enum.mapM (fun p => medicoLineStr (p.1 + 1) p.2)
        pure ("✅ Médicos disponibles (" ++ toString n ++ "):\n\n"
          ++ String.intercalate "\n" lineas)
  else
    pure "ℹ️ No se encontraron médicos"

/-- `ListarMedicosTool._arun` (lines 298-325). -/
def listar_medicos_arun (env : BackendEnv) (a : ListarMedicosInput) : String :=
  match listarMedicosBody env a with
  | .ok s => s
  | .error e => "❌ Error al listar médicos: " ++ pyStr e

/-- `ValidarMedicoInput` (backend_tools.py). -/
structure ValidarMedicoInput where
  id_medico : Int

/-- Body of `ValidarMedicoTool._arun` (lines 673-689). -/
def validarMedicoBody (env : BackendEnv) (a : ValidarMedicoInput) : Except PyExc String := do
  let result ← env (.get_medico a.id_medico)
  let success ← result.dictGet "success"
  let datav ← result.dictGet "data"
  if success.truthy && datav.truthy then do
    let medico ← result.item "data"
    let idMedico ← medico.dictGet "id_medico"
    let nombres ← medico.dictGetD "nombres" (.jstr "")
    let apellidos ← medico.dictGetD "apellidos" (.jstr "")
    let especialidad ← medico.dictGetD "especialidad" (.jstr "General")
    let colegiatura ← medico.dictGetD "colegiatura" (.jstr "No disponible")
    pure ("✅ Médico válido:\n- ID: " ++ pyShow idMedico
      ++ "\n- Nombre: Dr(a). " ++ pyShow nombres ++ " " ++ pyShow apellidos
      ++ "\n- Especialidad: " ++ pyShow especialidad
      ++ "\n- Colegiatura: " ++ pyShow colegiatura
      ++ "\n\nEste médico puede ser usado para agendar citas.")
  else
    pure ("❌ Médico con ID " ++ toString a.id_medico
      ++ " no existe o no está disponible. Usa listar_medicos para ver médicos válidos.")

/-- `ValidarMedicoTool._arun` (lines 673-693). -/
def validar_medico_arun (env : BackendEnv) (a : ValidarMedicoInput) : String :=
  match validarMedicoBody env a with
  | .ok s => s
  | .error e => "❌ Error al validar médico: " ++ pyStr e

/-- Body of `DeterminarTipoUsuarioTool._arun` (lines 357-375). -/
def determinarTipoUsuarioBody (env : BackendEnv) (a : DeterminarTipoUsuarioInput) :
    Except PyExc String := do
  let result ← env (.determinar_tipo_usuario a.id_usuario)
  let success ← result.dictGet "success"
  let datav ← result.dictGet "data"
  if success.truthy && datav.truthy then do
    let data ← result.item "data"
    let esActivo ← data.item "es_paciente_activo"
    if esActivo.truthy then do
      let nombre ← data.item "nombre_completo"
      let ultimoMedico ← data.dictGet "ultimo_medico"
      let msg := "✅ Usuario es PACIENTE ACTIVO: " ++ pyShow nombre
      if ultimoMedico.truthy then do
        let nombres ← ultimoMedico.item "nombres"
        let apellidos ← ultimoMedico.item "apellidos"
        let especialidad ← ultimoMedico.item "especialidad"
        pure (msg ++ "\n👨‍⚕️ Último médico: Dr. " ++ pyShow nombres ++ " "
          ++ pyShow apellidos ++ " (" ++ pyShow especialidad ++ ")")
      else
        pure msg
    else do
      let nombre ← data.item "nombre_completo"
      pure ("🆕 Usuario es EXTERNO (primera vez): " ++ pyShow nombre
        ++ "\n💡 Debe asignarse médico de cabecera")
  else do
    let message ← result.dictGetD "message" (.jstr "Error al determinar tipo de usuario")
    pure ("❌ " ++ pyShow message)

/-- `DeterminarTipoUsuarioTool._arun` (lines 357-379). -/
def determinar_tipo_usuario_arun (env : BackendEnv) (a : DeterminarTipoUsuarioInput) :
    String :=
  match determinarTipoUsuarioBody env a with
  | .ok s => s
  | .error e => "❌ Error: " ++ pyStr e

/-- One suggested-slot line of `SugerirHorariosTool._arun` (line 440). -/
def horarioLineStr (i : Nat) (h : JVal) : Except PyExc String := do
  let dia ← h.item "dia_semana"
  let fecha ← h.item "fecha"
  let hora ← h.item "hora"
  pure (toString i ++ ". " ++ pyShow dia ++ " " ++ pyShow fecha ++ " a las " ++ pyShow hora)

/-- Body of `SugerirHorariosTool._arun` (lines 413-445). -/
def sugerirHorariosBody (env : BackendEnv) (a : SugerirHorariosInput) :
    Except PyExc String := do
  let result ← env (.sugerir_horarios a.id_medico a.fecha_inicio a.fecha_fin
    a.duracion_minutos a.limite)
  let success ← result.dictGet "success"
  let datav ← result.dictGet "data"
  if success.truthy && datav.truthy then do
    let horarios ← result.item "data"
    let n ← horarios.pyLen
    if n = 0 then
      pure "❌ No hay horarios disponibles en el rango de fechas especificado"
    else do
      let hs ← horarios.toSeq
      let lineas ← hs.enum.mapM (fun p => horarioLineStr (p.1 + 1) p.2)
      pure ("📅 Horarios disponibles encontrados (" ++ toString n ++ "):\n\n"
        ++ String.intercalate "\n" lineas
        ++ "\n\n💡 El usuario puede elegir uno de estos horarios")
  else do
    let message ← result.dictGetD "message" (.jstr "Error al sugerir horarios")
    pure ("❌ " ++ pyShow message)

/-- `SugerirHorariosTool._arun` (lines 413-449). -/
def sugerir_horarios_arun (env : BackendEnv) (a : SugerirHorariosInput) : String :=
  match sugerirHorariosBody env a with
  | .ok s => s
  | .error e => "❌ Error: " ++ pyStr e

/-- Body of `RegistrarCitaTool._arun` (lines 491-525). -/
def registrarCitaBody (env : BackendEnv) (a : RegistrarCitaInput) : Except PyExc String := do
  let result ← env (.registrar_cita a.id_usuario a.id_medico a.fecha_hora_inicio
    a.fecha_hora_fin a.motivo a.tipo_cita a.notas)
  let success ← result.dictGet "success"
  let datav ← result.dictGet "data"
  if success.truthy && datav.truthy then do
    let data ← result.item "data"
    let idCita ← data.item "id_cita"
    let fechaInicio ← data.item "fecha_hora_inicio"
    let estado ← data.item "estado"
    let estadoMayus ← estado.upper
    let motivo ← data.item "motivo"
    pure ("✅ Cita registrada exitosamente:\n\n📋 ID Cita: " ++ pyShow idCita
      ++ "\n📅 Fecha/Hora: " ++ pyShow fechaInicio
      ++ "\n⏳ Estado: " ++ estadoMayus ++ " (pendiente de confirmación)"
      ++ "\n📝 Motivo: " ++ pyShow motivo
      ++ "\n\n💡 La cita está en estado PENDIENTE. El usuario debe confirmarla más adelante.")
  else do
    let message ← result.dictGetD "message" (.jstr "Error al registrar cita")
    pure ("❌ " ++ pyShow message)

/-- `RegistrarCitaTool._arun` (lines 491-529). -/
def registrar_cita_arun (env : BackendEnv) (a : RegistrarCitaInput) : String :=
  match registrarCitaBody env a with
  | .ok s => s
  | .error e => "❌ Error: " ++ pyStr e

/-- Body of `ConfirmarCitaTool._arun` (lines 560-576). -/
def confirmarCitaBody (env : BackendEnv) (a : ConfirmarCitaInput) : Except PyExc String := do
  let result ← env (.confirmar_cita a.id_cita)
  let success ← result.dictGet "success"
  let datav ← result.dictGet "data"
  if success.truthy && datav.truthy then do
    let data ← result.item "data"
    let idCita ← data.item "id_cita"
    let estado ← data.item "estado"
    let estadoMayus ← estado.upper
    let fechaInicio ← data.item "fecha_hora_inicio"
    pure ("✅ Cita confirmada exitosamente:\n\n📋 ID Cita: " ++ pyShow idCita
      ++ "\n✅ Estado: " ++ estadoMayus
      ++ "\n📅 Fecha/Hora: " ++ pyShow fechaInicio
      ++ "\n\n🔔 Recibirás un recordatorio antes de tu cita.")
  else do
    let message ← result.dictGetD "message" (.jstr "Error al confirmar cita")
    pure ("❌ " ++ pyShow message)

/-- `ConfirmarCitaTool._arun` (lines 560-580). -/
def confirmar_cita_arun (env : BackendEnv) (a : ConfirmarCitaInput) : String :=
  match confirmarCitaBody env a with
  | .ok s => s
  | .error e => "❌ Error: " ++ pyStr e

/-- Body of `RegistrarInteraccionTool._arun` (lines 615-639); note the success
branch tests only `result.get("success")` and renders `result['data']['id_interaccion']`. -/
def registrarInteraccionBody (env : BackendEnv) (a : RegistrarInteraccionInput) :
    Except PyExc String := do
  let result ← env (.registrar_interaccion a.id_usuario a.tipo_intencion
    a.entrada_usuario a.respuesta_ia a.estado_resultado a.contexto)
  let success ← result.dictGet "success"
  if success.truthy then do
    let data ← result.item "data"
    let idInteraccion ← data.item "id_interaccion"
    pure ("✅ Interacción registrada (ID: " ++ pyShow idInteraccion ++ ")")
  else do
    let message ← result.dictGetD "message" (.jstr "Error al registrar interacción")
    pure ("⚠️ " ++ pyShow message)

/-- `RegistrarInteraccionTool._arun` (lines 615-643): note the `⚠️` (not `❌`)
marker on its failure rendering. -/
def registrar_interaccion_arun (env : BackendEnv) (a : RegistrarInteraccionInput) : String :=
  match registrarInteraccionBody env a with
  | .ok s => s
  | .error e => "⚠️ Error: " ++ pyStr e

/-- The catalog of `get_all_tools()` (backend_tools.py lines 700-719): one
constructor per registered tool, carrying that tool's typed arguments. -/
inductive ToolCall where
  | buscar_paciente (a : BuscarPacienteInput)
  | consultar_citas (a : ConsultarCitasInput)
  | consultar_historial_clinico (a : ConsultarHistorialInput)
  | consultar_disponibilidad_medico (a : ConsultarDisponibilidadInput)
  | listar_medicos (a : ListarMedicosInput)
  | validar_medico (a : ValidarMedicoInput)
  | determinar_tipo_usuario (a : DeterminarTipoUsuarioInput)
  | sugerir_horarios_alternativos (a : SugerirHorariosInput)
  | registrar_cita (a : RegistrarCitaInput)
  | confirmar_cita (a : ConfirmarCitaInput)
  | registrar_interaccion_ia (a : RegistrarInteraccionInput)

/-- Dispatch a validated tool invocation to the corresponding `_arun`. -/
def executeTool (env : BackendEnv) : ToolCall → String
  | .buscar_paciente a => buscar_paciente_arun env a
  | .consultar_citas a => consultar_citas_arun env a
  | .consultar_historial_clinico a => consultar_historial_arun env a
  | .consultar_disponibilidad_medico a => consultar_disponibilidad_arun env a
  | .listar_medicos a => listar_medicos_arun env a
  | .validar_medico a => validar_medico_arun env a
  | .determinar_tipo_usuario a => determinar_tipo_usuario_arun env a
  | .sugerir_horarios_alternativos a => sugerir_horarios_arun env a
  | .registrar_cita a => registrar_cita_arun env a
  | .confirmar_cita a => confirmar_cita_arun env a
  | .registrar_interaccion_ia a => registrar_interaccion_arun env a

/-! ## Concrete instances used by witnesses and counterexamples -/

/-- A survey whose patient reports status `"mal"` (for C3). -/
def c3data : SeguimientoData :=
  { seguimiento_id := 7
    paciente_nombre := "Luis"
    tipo_tratamiento := "extracción"
    dias_desde_tratamiento := 2
    respuesta :=
      { estado_paciente := "mal"
        sintomas_reportados := none
        observaciones_paciente := none
        necesita_revision := false } }

/-- A well-formed model result with low urgency (for C3). -/
def c3dict : AnalisisDict :=
  { nivel_urgencia := some "bajo"
    requiere_atencion := some false
    sentimiento_general := some "negativo"
    sintomas_detectados := some ["dolor"]
    recomendacion := some "Llamar al paciente"
    resumen := some "Paciente con molestias"
    probabilidad_complicacion := some (mkRat 1 5)
    necesita_cita_urgente := some false }

/-- The finalized result of `c3dict` under `c3data` (for C3). -/
def c3res : AnalisisResultado :=
  { nivel_urgencia := "medio"
    requiere_atencion := true
    sentimiento_general := "negativo"
    sintomas_detectados := ["dolor"]
    recomendacion := "Llamar al paciente"
    resumen := "Paciente con molestias"
    probabilidad_complicacion := mkRat 1 5
    necesita_cita_urgente := false }

/-- A free-text symptom report longer than 50 characters (for C4). -/
def c4sintomas : String :=
  "Dolor intenso en la zona tratada que empeora cada día y no mejora con nada"

/-- A survey with long free-text symptoms and status `"bien"` (for C4). -/
def c4data : SeguimientoData :=
  { seguimiento_id := 8
    paciente_nombre := "Marta"
    tipo_tratamiento := "implante"
    dias_desde_tratamiento := 5
    respuesta :=
      { estado_paciente := "bien"
        sintomas_reportados := some c4sintomas
        observaciones_paciente := none
        necesita_revision := false } }

/-- A well-formed model result with low urgency (for C4). -/
def c4dict : AnalisisDict :=
  { nivel_urgencia := some "bajo"
    requiere_atencion := some false
    sentimiento_general := some "neutral"
    sintomas_detectados := some []
    recomendacion := some "Sin acción"
    resumen := some "Recuperación normal"
    probabilidad_complicacion := some (mkRat 1 10)
    necesita_cita_urgente := some false }

/-- The finalized result of `c4dict` under `c4data` (for C4's amended claim). -/
def c4res : AnalisisResultado :=
  { nivel_urgencia := "bajo"
    requiere_atencion := true
    sentimiento_general := "neutral"
    sintomas_detectados := []
    recomendacion := "Sin acción"
    resumen := "Recuperación normal"
    probabilidad_complicacion := mkRat 1 10
    necesita_cita_urgente := false }

/-- A survey with long free-text symptoms AND status `"mal"` (C4's
counterexample: both overrides interact). -/
def c4xdata : SeguimientoData :=
  { seguimiento_id := 9
    paciente_nombre := "Pedro"
    tipo_tratamiento := "endodoncia"
    dias_desde_tratamiento := 1
    respuesta :=
      { estado_paciente := "mal"
        sintomas_reportados := some c4sintomas
        observaciones_paciente := none
        necesita_revision := false } }

/-- The finalized result of `c4dict` under `c4xdata`: urgency is escalated to
`"medio"` by the status override before the symptom override is examined. -/
def c4xres : AnalisisResultado :=
  { nivel_urgencia := "medio"
    requiere_atencion := true
    sentimiento_general := "neutral"
    sintomas_detectados := []
    recomendacion := "Sin acción"
    resumen := "Recuperación normal"
    probabilidad_complicacion := mkRat 1 10
    necesita_cita_urgente := false }

/-- An unremarkable survey (for C10). -/
def c10data : SeguimientoData :=
  { seguimiento_id := 10
    paciente_nombre := "Eva"
    tipo_tratamiento := "limpieza"
    dias_desde_tratamiento := 4
    respuesta :=
      { estado_paciente := "bien"
        sintomas_reportados := none
        observaciones_paciente := none
        necesita_revision := false } }

/-- Valid JSON that violates the schema: the required `recomendacion` field is
absent (for C10). -/
def c10dictMissing : AnalisisDict :=
  { nivel_urgencia := some "medio"
    requiere_atencion := some true
    sentimiento_general := some "neutral"
    sintomas_detectados := some []
    recomendacion := none
    resumen := some "resumen"
    probabilidad_complicacion := some (mkRat 1 2)
    necesita_cita_urgente := some false }

/-- Valid JSON that violates the schema: `probabilidad_complicacion = 1.5`
falls outside [0,1] (for C10). -/
def c10dictRange : AnalisisDict :=
  { nivel_urgencia := some "medio"
    requiere_atencion := some true
    sentimiento_general := some "neutral"
    sintomas_detectados := some []
    recomendacion := some "ok"
    resumen := some "resumen"
    probabilidad_complicacion := some (mkRat 3 2)
    necesita_cita_urgente := some false }

/-! ## Helper lemmas -/

theorem except_bind_error {ε α β : Type} (e : ε) (f : α → Except ε β) :
    (Except.error e >>= f : Except ε β) = Except.error e := rfl

theorem except_bind_ok {ε α β : Type} (a : α) (f : α → Except ε β) :
    (Except.ok a >>= f : Except ε β) = f a := rfl

/-- A successful pydantic construction copies `nivel_urgencia` and
`requiere_atencion` from the input dict. -/
theorem validate_ok_nivel_atencion (d : AnalisisDict) (a : AnalisisResultado)
    (h : AnalisisResultado.validate d = .ok a) :
    d.nivel_urgencia = some a.nivel_urgencia ∧ d.requiere_atencion = some a.requiere_atencion := by
  rcases d with ⟨nu, ra, sg, sd, rc, rs, pc, nc⟩
  cases nu <;> cases ra <;> cases sg <;> cases rc <;> cases rs <;> cases pc <;> cases nc <;>
    try exact absurd h (fun hh => Except.noConfusion hh)
  simp only [AnalisisResultado.validate] at h
  split at h
  · exact absurd h (fun hh => Except.noConfusion hh)
  · cases h
    exact ⟨rfl, rfl⟩

/-- The end-to-end effect of a raw LLM response that is not valid JSON: the
service substitutes its own fallback (which has `necesita_cita_urgente =
false`), the escalation overrides do not fire on it (its urgency is
`"medio"`), and validation accepts it. -/
theorem endpoint_invalid_json (data : SeguimientoData) (s : String) :
    analizar_respuesta_seguimiento data (.success (.invalidJson s)) =
      .ok { nivel_urgencia := "medio"
            requiere_atencion := true
            sentimiento_general := "neutral"
            sintomas_detectados := ["Requiere revisión manual"]
            recomendacion := "Por favor, contacta al paciente para revisar su respuesta manualmente. El análisis automático no pudo completarse."
            resumen := "Análisis automático falló para " ++ data.paciente_nombre ++ ". Requiere revisión manual."
            probabilidad_complicacion := mkRat 1 2
            necesita_cita_urgente := false } := by
  have hq : ¬ ((mkRat 1 2 : ℚ) < 0 ∨ 1 < (mkRat 1 2 : ℚ)) := by decide
  simp [analizar_respuesta_seguimiento, analizar_seguimiento_post_tratamiento,
        parsear_respuesta_ia, get_fallback_response, AnalisisResultado.validate,
        sintomas_largos, hq]

/-! ## Claims -/

/-- C1 (counterexample): the claim says that when the raw LLM response is not
valid JSON the final result's `necesita_cita_urgente` equals the survey's
`necesita_revision` (wantsReview) flag.  On this survey the flag is `true`,
yet the final analysis is the service-level fallback with
`necesita_cita_urgente = false` — the claim is false as stated. -/
theorem c1_counterexample :
    (analizar_respuesta_seguimiento
        { seguimiento_id := 1
          paciente_nombre := "Ana"
          tipo_tratamiento := "endodoncia"
          dias_desde_tratamiento := 3
          respuesta :=
            { estado_paciente := "bien"
              sintomas_reportados := none
              observaciones_paciente := none
              necesita_revision := true } }
        (.success (.invalidJson "not json")) =
      .ok { nivel_urgencia := "medio"
            requiere_atencion := true
            sentimiento_general := "neutral"
            sintomas_detectados := ["Requiere revisión manual"]
            recomendacion := "Por favor, contacta al paciente para revisar su respuesta manualmente. El análisis automático no pudo completarse."
            resumen := "Análisis automático falló para Ana. Requiere revisión manual."
            probabilidad_complicacion := mkRat 1 2
            necesita_cita_urgente := false })
    ∧ (false ≠ true) := by
  exact ⟨by rfl, by decide⟩

/-- C1 (amended): for every survey, when the raw LLM response during analysis
is not valid JSON, the final analysis result is the fixed service-level
fallback with `nivel_urgencia = "medio"`, `requiere_atencion = true`,
`sentimiento_general = "neutral"`, `probabilidad_complicacion = 0.5` and
`necesita_cita_urgente = false` — the constant `False` of
`_get_fallback_response`, NOT the survey's `necesita_revision` flag.  (The
parse-level fallback that copies the flag is unreachable for malformed raw
output, because the service already replaced it with valid fallback JSON.) -/
theorem c1_invalid_json_yields_service_fallback (data : SeguimientoData) (s : String) :
    analizar_respuesta_seguimiento data (.success (.invalidJson s)) =
      .ok { nivel_urgencia := "medio"
            requiere_atencion := true
            sentimiento_general := "neutral"
            sintomas_detectados := ["Requiere revisión manual"]
            recomendacion := "Por favor, contacta al paciente para revisar su respuesta manualmente. El análisis automático no pudo completarse."
            resumen := "Análisis automático falló para " ++ data.paciente_nombre ++ ". Requiere revisión manual."
            probabilidad_complicacion := mkRat 1 2
            necesita_cita_urgente := false } :=
  endpoint_invalid_json data s

/-- C2 (counterexample): the claim says `analyze` never raises to its caller
when the LLM provider call itself raises, returning the deterministic
fallback instead.  In fact the provider exception is re-raised by
`analizar_seguimiento_post_tratamiento` and converted to an HTTP 500 error by
the endpoint — the caller receives an error, not an `AnalysisResult`. -/
theorem c2_counterexample :
    analizar_respuesta_seguimiento
        { seguimiento_id := 2
          paciente_nombre := "Ana"
          tipo_tratamiento := "endodoncia"
          dias_desde_tratamiento := 3
          respuesta :=
            { estado_paciente := "bien"
              sintomas_reportados := none
              observaciones_paciente := none
              necesita_revision := false } }
        (.failure "APIConnectionError") =
      .httpError 500 (.providerError "APIConnectionError") := by
  rfl

/-- C2 (amended): when parsing the LLM output fails (the content is not valid
JSON), analysis indeed returns a structurally valid fallback `AnalysisResult`
and raises nothing; but when the provider call itself raises, the exception
propagates out of the service layer and the analysis entry point answers with
an HTTP 500 error instead of a fallback result. -/
theorem c2_parse_fallback_but_provider_raises (data : SeguimientoData) (s e : String) :
    (∃ a, analizar_respuesta_seguimiento data (.success (.invalidJson s)) = .ok a) ∧
    analizar_respuesta_seguimiento data (.failure e) = .httpError 500 (.providerError e) :=
  ⟨⟨_, endpoint_invalid_json data s⟩, rfl⟩

/-- C3: for every survey whose self-reported status is `"mal"` and every
parsed model result with `nivel_urgencia = "bajo"`, the finalized analysis
result has `nivel_urgencia = "medio"` and `requiere_atencion = true` (the
first escalation override). -/
theorem c3_mal_escalation (data : SeguimientoData) (d : AnalisisDict) (a : AnalisisResultado)
    (hmal : data.respuesta.estado_paciente = "mal")
    (hbajo : d.nivel_urgencia = some "bajo")
    (hok : parsear_respuesta_ia (.validJson d) data = .ok a) :
    a.nivel_urgencia = "medio" ∧ a.requiere_atencion = true := by
  simp only [parsear_respuesta_ia, hmal, hbajo, and_self, if_true, reduceIte] at hok
  obtain ⟨h1, h2⟩ := validate_ok_nivel_atencion _ _ hok
  simp at h1 h2
  exact ⟨h1.symm, h2⟩

/-- C3 witness: a concrete `"mal"` survey with a low-urgency model result;
the finalized result is escalated. -/
theorem c3_mal_escalation_witness :
    c3data.respuesta.estado_paciente = "mal" ∧
    c3dict.nivel_urgencia = some "bajo" ∧
    parsear_respuesta_ia (.validJson c3dict) c3data = .ok c3res ∧
    (c3res.nivel_urgencia = "medio" ∧ c3res.requiere_atencion = true) :=
  ⟨rfl, rfl, by rfl, c3_mal_escalation c3data c3dict c3res rfl rfl (by rfl)⟩

/-- C4 (counterexample): the claim says that whenever free-text symptoms
exceed 50 characters and the model returned `nivel_urgencia = "bajo"`, the
finalized result keeps `nivel_urgencia = "bajo"`.  On a survey that ALSO
reports status `"mal"`, the status override runs first and raises the
urgency, so the finalized result has `nivel_urgencia = "medio"` — the claim
is false as stated. -/
theorem c4_counterexample :
    sintomas_largos c4xdata.respuesta = true ∧
    c4dict.nivel_urgencia = some "bajo" ∧
    parsear_respuesta_ia (.validJson c4dict) c4xdata = .ok c4xres ∧
    c4xres.nivel_urgencia = "medio" := by
  refine ⟨by decide, rfl, by rfl, rfl⟩

/-- C4 (amended): for every survey whose free-text symptoms are present and
longer than 50 characters, and every parsed model result with
`nivel_urgencia = "bajo"`, the finalized result has
`requiere_atencion = true`; and provided the self-reported status is not
`"mal"` (so the first override does not fire), `nivel_urgencia` stays
`"bajo"`. -/
theorem c4_sintomas_override (data : SeguimientoData) (d : AnalisisDict) (a : AnalisisResultado)
    (hsint : sintomas_largos data.respuesta = true)
    (hbajo : d.nivel_urgencia = some "bajo")
    (hok : parsear_respuesta_ia (.validJson d) data = .ok a) :
    a.requiere_atencion = true ∧
    (data.respuesta.estado_paciente ≠ "mal" → a.nivel_urgencia = "bajo") := by
  by_cases hmal : data.respuesta.estado_paciente = "mal"
  · simp only [parsear_respuesta_ia, hmal, hbajo, and_self, if_true, reduceIte] at hok
    obtain ⟨h1, h2⟩ := validate_ok_nivel_atencion _ _ hok
    simp at h1 h2
    exact ⟨h2, fun hc => absurd hmal hc⟩
  · simp only [parsear_respuesta_ia, hsint, hbajo, hmal, false_and, if_false,
      and_self, if_true, reduceIte, and_true, true_and] at hok
    obtain ⟨h1, h2⟩ := validate_ok_nivel_atencion _ _ hok
    simp at h1 h2
    exact ⟨h2, fun _ => h1.symm⟩

/-- C4 witness: a concrete survey (status `"bien"`, 70+-character symptom
text) with a low-urgency model result: attention is forced, urgency kept. -/
theorem c4_sintomas_override_witness :
    sintomas_largos c4data.respuesta = true ∧
    c4dict.nivel_urgencia = some "bajo" ∧
    parsear_respuesta_ia (.validJson c4dict) c4data = .ok c4res ∧
    (c4res.requiere_atencion = true ∧
      (c4data.respuesta.estado_paciente ≠ "mal" → c4res.nivel_urgencia = "bajo")) :=
  ⟨by decide, rfl, by rfl,
    c4_sintomas_override c4data c4dict c4res (by decide) rfl (by rfl)⟩

/-- C10: there are LLM responses that are valid JSON but violate the
`AnalisisResultado` schema — a missing required field (`recomendacion`
absent) and an out-of-range `probabilidad_complicacion` (1.5) — for which
`parsear_respuesta_ia` raises a pydantic validation error that its
JSON-decode fallback does not catch, so the analysis entry point returns an
HTTP 500 error to the caller instead of the deterministic fallback result. -/
theorem c10_schema_invalid_raises :
    parsear_respuesta_ia (.validJson c10dictMissing) c10data = .error .missingField ∧
    analizar_respuesta_seguimiento c10data (.success (.validJson c10dictMissing)) =
      .httpError 500 (.validationError .missingField) ∧
    parsear_respuesta_ia (.validJson c10dictRange) c10data = .error .outOfRange ∧
    analizar_respuesta_seguimiento c10data (.success (.validJson c10dictRange)) =
      .httpError 500 (.validationError .outOfRange) :=
  ⟨by rfl, by rfl, by rfl, by rfl⟩

/-- Under the store invariant (every stored session's `session_id` equals its
dict key), a successful lookup returns a session carrying the looked-up id. -/
theorem lookupSession_session_id (l : List (String × ConversationSession)) (sid : String)
    (v : ConversationSession) (hinv : ∀ p ∈ l, p.2.session_id = p.1)
    (h : lookupSession l sid = some v) : v.session_id = sid := by
  induction l with
  | nil => exact absurd h (by simp [lookupSession])
  | cons p rest ih =>
      simp only [lookupSession] at h
      split at h
      · rename_i hc
        cases h
        rw [hinv p (List.mem_cons_self p rest), hc]
      · exact ih (fun q hq => hinv q (List.mem_cons_of_mem _ hq)) h

/-- The session handed back by `get_or_create_session` carries the resolved
id, whether it was found or freshly created. -/
theorem get_or_create_session_sid (st : AgentState) (sid : Option String)
    (uid : Option Int) (g : String)
    (hinv : ∀ p ∈ st.sessions, p.2.session_id = p.1) :
    (get_or_create_session st sid uid g).2.session_id = resolve_session_id sid g := by
  simp only [get_or_create_session]
  cases hl : lookupSession st.sessions (resolve_session_id sid g) with
  | some v => exact lookupSession_session_id _ _ _ hinv hl
  | none => rfl

/-- C5 (counterexample): the claim says a sessionId that was supplied but not
previously seen gets a session under a FRESHLY GENERATED unique id.  In fact
the code keys the new session by the SUPPLIED id and only generates an id
when the argument is absent (or empty): here the new session's id is the
supplied `"abc"`, not the generated uuid. -/
theorem c5_counterexample :
    (get_or_create_session ⟨[]⟩ (some "abc") none "generated-uuid").2.session_id = "abc" ∧
    (get_or_create_session ⟨[]⟩ (some "abc") none "generated-uuid").2.session_id
      ≠ "generated-uuid" := by
  exact ⟨by rfl, by decide⟩

/-- C5 (amended): when the sessionId argument is absent, a new session with
empty history is created under the freshly generated id and appended to the
store (provided the generated uuid is fresh); when a sessionId is supplied
but unknown, a new session with empty history is created under the SUPPLIED
id; when it names an existing session, that session is returned unchanged,
store untouched. -/
theorem c5_get_or_create (st : AgentState) (uid : Option Int) (g s : String)
    (sess : ConversationSession) (hs : s ≠ "")
    (hg : lookupSession st.sessions g = none) :
    ((get_or_create_session st none uid g).2 = newConversationSession g uid ∧
      (get_or_create_session st none uid g).2.messages = [] ∧
      (get_or_create_session st none uid g).1.sessions
        = st.sessions ++ [(g, newConversationSession g uid)]) ∧
    (lookupSession st.sessions s = none →
      (get_or_create_session st (some s) uid g).2 = newConversationSession s uid ∧
      (get_or_create_session st (some s) uid g).2.messages = [] ∧
      (get_or_create_session st (some s) uid g).1.sessions
        = st.sessions ++ [(s, newConversationSession s uid)]) ∧
    (lookupSession st.sessions s = some sess →
      get_or_create_session st (some s) uid g = (st, sess)) := by
  refine ⟨?_, ?_, ?_⟩
  · simp [get_or_create_session, resolve_session_id, hg, newConversationSession]
  · intro hns
    simp [get_or_create_session, resolve_session_id, hs, hns, newConversationSession]
  · intro hks
    simp [get_or_create_session, resolve_session_id, hs, hks]

/-- C5 witness: a one-session store; all three branches instantiated. -/
theorem c5_get_or_create_witness :
    ("s1" : String) ≠ "" ∧
    lookupSession [("s1", newConversationSession "s1" none)] "uuid-xyz" = none ∧
    (((get_or_create_session ⟨[("s1", newConversationSession "s1" none)]⟩ none none "uuid-xyz").2
        = newConversationSession "uuid-xyz" none ∧
      (get_or_create_session ⟨[("s1", newConversationSession "s1" none)]⟩ none none "uuid-xyz").2.messages = [] ∧
      (get_or_create_session ⟨[("s1", newConversationSession "s1" none)]⟩ none none "uuid-xyz").1.sessions
        = [("s1", newConversationSession "s1" none)] ++ [("uuid-xyz", newConversationSession "uuid-xyz" none)]) ∧
    (lookupSession [("s1", newConversationSession "s1" none)] "s1" = none →
      (get_or_create_session ⟨[("s1", newConversationSession "s1" none)]⟩ (some "s1") none "uuid-xyz").2
        = newConversationSession "s1" none ∧
      (get_or_create_session ⟨[("s1", newConversationSession "s1" none)]⟩ (some "s1") none "uuid-xyz").2.messages = [] ∧
      (get_or_create_session ⟨[("s1", newConversationSession "s1" none)]⟩ (some "s1") none "uuid-xyz").1.sessions
        = [("s1", newConversationSession "s1" none)] ++ [("s1", newConversationSession "s1" none)]) ∧
    (lookupSession [("s1", newConversationSession "s1" none)] "s1"
        = some (newConversationSession "s1" none) →
      get_or_create_session ⟨[("s1", newConversationSession "s1" none)]⟩ (some "s1") none "uuid-xyz"
        = (⟨[("s1", newConversationSession "s1" none)]⟩, newConversationSession "s1" none))) :=
  ⟨by decide, by decide,
    c5_get_or_create ⟨[("s1", newConversationSession "s1" none)]⟩ none "uuid-xyz" "s1"
      (newConversationSession "s1" none) (by decide) (by decide)⟩

/-- C6: `process_message` is total over the run outcome: whatever the agent
invocation does, the caller gets a textual reply and a sessionId.  When the
run raises: the reply is the templated apology, the raw error appears only in
the metadata, and a supplied (non-empty) sessionId is preserved, while an
absent one is freshly generated (`g2`).  When the run returns: the resulting
sessionId is the supplied one (preserved) or the one generated at session
creation (`g`). -/
theorem c6_process_total (k : Nat) (st : AgentState) (msg s : String)
    (uid : Option Int) (ctx : Option (List (String × String))) (g g2 e : String)
    (out : Option String) (hs : s ≠ "")
    (hinv : ∀ p ∈ st.sessions, p.2.session_id = p.1) :
    ((process_message k st msg (some s) uid ctx g g2 (fun _ _ => Except.error e)).2 =
      { message := "Lo siento, ocurrió un error al procesar tu mensaje. Por favor, intenta de nuevo."
        session_id := s
        metadata := .failure e }) ∧
    ((process_message k st msg none uid ctx g g2 (fun _ _ => Except.error e)).2.session_id = g2) ∧
    ((process_message k st msg (some s) uid ctx g g2 (fun _ _ => Except.ok out)).2.session_id = s) ∧
    ((process_message k st msg none uid ctx g g2 (fun _ _ => Except.ok out)).2.session_id = g) := by
  have hsidS := get_or_create_session_sid st (some s) uid g hinv
  have hsidN := get_or_create_session_sid st none uid g hinv
  refine ⟨?_, ?_, ?_, ?_⟩
  · simp [process_message, resolve_session_id, hs]
  · simp [process_message, resolve_session_id]
  · simp only [process_message, ConversationSession.add_message]
    simpa [resolve_session_id, hs] using hsidS
  · simp only [process_message, ConversationSession.add_message]
    simpa [resolve_session_id] using hsidN

/-- C6 witness: empty store, supplied sessionId `"w6"`, both run outcomes. -/
theorem c6_process_total_witness :
    ((process_message 3 ⟨[]⟩ "Hola" (some "w6") none none "u1" "u2"
        (fun _ _ => Except.error "boom")).2 =
      { message := "Lo siento, ocurrió un error al procesar tu mensaje. Por favor, intenta de nuevo."
        session_id := "w6"
        metadata := .failure "boom" }) ∧
    ((process_message 3 ⟨[]⟩ "Hola" none none none "u1" "u2"
        (fun _ _ => Except.error "boom")).2.session_id = "u2") ∧
    ((process_message 3 ⟨[]⟩ "Hola" (some "w6") none none "u1" "u2"
        (fun _ _ => Except.ok (some "¡Hola! ¿En qué puedo ayudarte?"))).2.session_id = "w6") ∧
    ((process_message 3 ⟨[]⟩ "Hola" none none none "u1" "u2"
        (fun _ _ => Except.ok (some "¡Hola! ¿En qué puedo ayudarte?"))).2.session_id = "u1") :=
  c6_process_total 3 ⟨[]⟩ "Hola" "w6" none none "u1" "u2" "boom"
    (some "¡Hola! ¿En qué puedo ayudarte?") (by decide) (by simp)

/-- Folding pushes into a buffer that is within capacity keeps exactly the
last `k` entries of the combined sequence, in order. -/
theorem foldl_memoryPush_window (k : Nat) (hk : 0 < k) :
    ∀ (ms buf : List ChatMessage), buf.length ≤ k →
      ms.foldl (memoryPush k) buf = (buf ++ ms).drop ((buf ++ ms).length - k) := by
  intro ms
  induction ms with
  | nil =>
      intro buf hb
      simp [Nat.sub_eq_zero_of_le hb]
  | cons m rest ih =>
      intro buf hb
      rw [List.foldl_cons]
      by_cases hlt : buf.length < k
      · have hpush : memoryPush k buf m = buf ++ [m] := by simp [memoryPush, hlt]
        rw [hpush, ih (buf ++ [m]) (by simp only [List.length_append, List.length_singleton]; omega)]
        simp [List.append_assoc]
      · have hbe : buf.length = k := le_antisymm hb (not_lt.mp hlt)
        have hpush : memoryPush k buf m = buf.drop 1 ++ [m] := by simp [memoryPush, hlt]
        have hlen1 : (buf.drop 1 ++ [m]).length ≤ k := by
          simp only [List.length_append, List.length_drop, List.length_singleton]
          omega
        rw [hpush, ih (buf.drop 1 ++ [m]) hlen1]
        obtain ⟨b, buf', rfl⟩ : ∃ b buf', buf = b :: buf' := by
          cases buf with
          | nil => exact absurd hbe (by simp; omega)
          | cons b bs => exact ⟨b, bs, rfl⟩
        have hb' : buf'.length + 1 = k := by simpa using hbe
        have hdrop1 : (b :: buf').drop 1 = buf' := rfl
        rw [hdrop1, List.append_assoc, List.singleton_append, List.cons_append]
        have h1 : (buf' ++ m :: rest).length - k = rest.length := by
          simp only [List.length_append, List.length_cons]
          omega
        have h2 : (b :: (buf' ++ m :: rest)).length - k = rest.length + 1 := by
          simp only [List.length_cons, List.length_append]
          omega
        rw [h1, h2]
        rfl

/-- Folding `add_message` over user/assistant turns drives the memory buffer
exactly as folding `memoryPush` over the corresponding messages. -/
theorem foldl_add_message_memory (k : Nat) (items : List (MessageRole × String)) :
    ∀ (sess : ConversationSession),
      (∀ p ∈ items, p.1 = MessageRole.user ∨ p.1 = MessageRole.assistant) →
      (items.foldl (fun s p => s.add_message k p.1 p.2) sess).memory
        = (items.map (fun p => ({ role := p.1, content := p.2 } : ChatMessage))).foldl
            (memoryPush k) sess.memory := by
  induction items with
  | nil => intro sess _; rfl
  | cons p rest ih =>
      intro sess hroles
      rw [List.foldl_cons, List.map_cons, List.foldl_cons]
      have hmem : (sess.add_message k p.1 p.2).memory
          = memoryPush k sess.memory { role := p.1, content := p.2 } := by
        rcases hroles p (List.mem_cons_self p rest) with h | h <;>
          simp [ConversationSession.add_message, h]
      rw [ih _ (fun q hq => hroles q (List.mem_cons_of_mem _ hq)), hmem]

/-- C7: starting from a fresh session, after appending any sequence of N
user/assistant turns the memory buffer rendered to the LLM contains exactly
`min N k` most recent entries in oldest-first order (the suffix of the
appended sequence), where `k` is the configured window size
(`CONVERSATION_HISTORY_LIMIT`).  The buffer implementation is modelled from
the spec (§4.1), `ConversationBufferWindowMemory` being library code. -/
theorem c7_memory_window (k : Nat) (sid : String) (uid : Option Int)
    (items : List (MessageRole × String)) (hk : 0 < k)
    (hroles : ∀ p ∈ items, p.1 = MessageRole.user ∨ p.1 = MessageRole.assistant) :
    (items.foldl (fun s p => s.add_message k p.1 p.2) (newConversationSession sid uid)).memory
      = (items.map (fun p => ({ role := p.1, content := p.2 } : ChatMessage))).drop
          (items.length - k) ∧
    (items.foldl (fun s p => s.add_message k p.1 p.2) (newConversationSession sid uid)).memory.length
      = min items.length k := by
  have h1 := foldl_add_message_memory k items (newConversationSession sid uid) hroles
  have h2 := foldl_memoryPush_window k hk
    (items.map (fun p => ({ role := p.1, content := p.2 } : ChatMessage))) [] (by simp)
  rw [List.nil_append] at h2
  have hmain :
      (items.foldl (fun s p => s.add_message k p.1 p.2) (newConversationSession sid uid)).memory
        = (items.map (fun p => ({ role := p.1, content := p.2 } : ChatMessage))).drop
            (items.length - k) := by
    rw [h1]
    simp only [newConversationSession]
    simpa [List.length_map] using h2
  refine ⟨hmain, ?_⟩
  rw [hmain]
  simp only [List.length_drop, List.length_map]
  omega

/-- C7 witness: window size 2, three turns appended: the buffer holds the
last two, oldest first. -/
theorem c7_memory_window_witness :
    ([((MessageRole.user : MessageRole), "a"), (MessageRole.assistant, "b"),
        (MessageRole.user, "c")].foldl
      (fun s p => s.add_message 2 p.1 p.2) (newConversationSession "w7" none)).memory
      = [{ role := MessageRole.assistant, content := "b" },
         { role := MessageRole.user, content := "c" }] ∧
    ([((MessageRole.user : MessageRole), "a"), (MessageRole.assistant, "b"),
        (MessageRole.user, "c")].foldl
      (fun s p => s.add_message 2 p.1 p.2) (newConversationSession "w7" none)).memory.length = 2 :=
  c7_memory_window 2 "w7" none
    [(MessageRole.user, "a"), (MessageRole.assistant, "b"), (MessageRole.user, "c")]
    (by decide)
    (by intro p hp
        simp only [List.mem_cons, List.not_mem_nil, or_false] at hp
        rcases hp with rfl | rfl | rfl
        · exact Or.inl rfl
        · exact Or.inr rfl
        · exact Or.inl rfl)

/-- The loop never performs more rounds than its remaining budget, and if the
LLM keeps emitting tool calls for the whole budget the reply is the fallback
text. -/
theorem agentLoopGo_spec (llm : Nat → LLMStep) :
    ∀ (fuel i : Nat),
      (agentLoopGo llm i fuel).2 ≤ fuel ∧
      ((∀ j, j < fuel → ∃ ts, llm (i + j) = .toolCalls ts) →
        (agentLoopGo llm i fuel).1 = agentFallbackText) := by
  intro fuel
  induction fuel with
  | zero => exact fun i => ⟨Nat.le_refl 0, fun _ => rfl⟩
  | succ f ih =>
      intro i
      cases hstep : llm i with
      | finalAnswer t =>
          refine ⟨by simp [agentLoopGo, hstep], ?_⟩
          intro hall
          obtain ⟨ts, hts⟩ := hall 0 (Nat.succ_pos f)
          rw [Nat.add_zero, hstep] at hts
          exact absurd hts (by simp)
      | toolCalls ts =>
          refine ⟨?_, ?_⟩
          · have hle := (ih (i + 1)).1
            simp only [agentLoopGo, hstep]
            omega
          · intro hall
            simp only [agentLoopGo, hstep]
            refine (ih (i + 1)).2 (fun j hj => ?_)
            obtain ⟨ts', hts'⟩ := hall (j + 1) (Nat.succ_lt_succ hj)
            refine ⟨ts', ?_⟩
            have harith : i + 1 + j = i + (j + 1) := by omega
            rw [harith, hts']

/-- C9 (spec model): for every behaviour of the LLM, one `process()` call
performs at most `maxIterations` (`AGENT_MAX_ITERATIONS`, default 10) LLM
reasoning rounds; and when the cap is exhausted (the LLM emits tool calls on
every available round) the loop returns the fallback apology text — a normal
string result, not an exception (the loop is total by construction). -/
theorem c9_iteration_bound (llm : Nat → LLMStep) (maxIterations : Nat) :
    (agentLoop llm maxIterations).2 ≤ maxIterations ∧
    ((∀ i, i < maxIterations → ∃ ts, llm i = .toolCalls ts) →
      (agentLoop llm maxIterations).1 = agentFallbackText) := by
  have h := agentLoopGo_spec llm maxIterations 0
  simpa [agentLoop] using h

/-- C9 witness: an LLM that always emits tool calls, cap 2: the loop does 2
rounds and returns the fallback text. -/
theorem c9_iteration_bound_witness :
    (agentLoop (fun _ => LLMStep.toolCalls []) 2).2 ≤ 2 ∧
    (agentLoop (fun _ => LLMStep.toolCalls []) 2).1 = agentFallbackText :=
  ⟨(c9_iteration_bound (fun _ => LLMStep.toolCalls []) 2).1,
    (c9_iteration_bound (fun _ => LLMStep.toolCalls []) 2).2 (fun _ _ => ⟨[], rfl⟩)⟩

/-- C8: for every tool in the catalog, every argument set, and a backend that
raises on every call, the tool's execute still returns a plain string (it is
total by construction — the `try/except Exception` wrapping means no
exception escapes), and that string is an emoji-marked error rendering:
`"❌" ++ …` for ten of the tools, `"⚠️" ++ …` for `registrar_interaccion_ia`.
Argument validation failures (missing search criteria) are likewise returned
as `"❌" ++ …` strings without touching the backend. -/
theorem c8_tools_never_raise (env : BackendEnv) (e : PyExc) (c : ToolCall)
    (henv : ∀ m, env m = Except.error e) :
    ∃ t, executeTool env c = "❌" ++ t ∨ executeTool env c = "⚠️" ++ t := by
  cases c with
  | buscar_paciente a =>
      by_cases hp : optIntTruthy a.paciente_id = true
      · refine ⟨" Error al buscar paciente: " ++ pyStr e, Or.inl ?_⟩
        have hb : executeTool env (.buscar_paciente a)
            = "❌ Error al buscar paciente: " ++ pyStr e := by
          simp [executeTool, buscar_paciente_arun, buscarPacienteBody, hp, henv,
            except_bind_error]
        rw [hb, show ("❌ Error al buscar paciente: " : String)
              = "❌" ++ " Error al buscar paciente: " from by decide, String.append_assoc]
      · by_cases hd : optStrTruthy a.dni = true
        · refine ⟨" Error al buscar paciente: " ++ pyStr e, Or.inl ?_⟩
          have hb : executeTool env (.buscar_paciente a)
              = "❌ Error al buscar paciente: " ++ pyStr e := by
            simp [executeTool, buscar_paciente_arun, buscarPacienteBody, hp, hd, henv,
              except_bind_error]
          rw [hb, show ("❌ Error al buscar paciente: " : String)
                = "❌" ++ " Error al buscar paciente: " from by decide, String.append_assoc]
        · by_cases hn : optStrTruthy a.nombre = true
          · refine ⟨" Error al buscar paciente: " ++ pyStr e, Or.inl ?_⟩
            have hb : executeTool env (.buscar_paciente a)
                = "❌ Error al buscar paciente: " ++ pyStr e := by
              simp [executeTool, buscar_paciente_arun, buscarPacienteBody, hp, hd, hn, henv,
                except_bind_error]
            rw [hb, show ("❌ Error al buscar paciente: " : String)
                  = "❌" ++ " Error al buscar paciente: " from by decide, String.append_assoc]
          · refine ⟨" Debes proporcionar al menos un criterio de búsqueda (DNI, ID o nombre)",
              Or.inl ?_⟩
            have hb : executeTool env (.buscar_paciente a)
                = "❌ Debes proporcionar al menos un criterio de búsqueda (DNI, ID o nombre)" := by
              simp [executeTool, buscar_paciente_arun, buscarPacienteBody, hp, hd, hn]
            rw [hb]
            decide
  | consultar_citas a =>
      by_cases hp : optIntTruthy a.paciente_id = true
      · refine ⟨" Error al consultar citas: " ++ pyStr e, Or.inl ?_⟩
        have hb : executeTool env (.consultar_citas a)
            = "❌ Error al consultar citas: " ++ pyStr e := by
          simp [executeTool, consultar_citas_arun, consultarCitasBody, hp, henv,
            except_bind_error]
        rw [hb, show ("❌ Error al consultar citas: " : String)
              = "❌" ++ " Error al consultar citas: " from by decide, String.append_assoc]
      · by_cases hm : optIntTruthy a.medico_id = true
        · refine ⟨" Error al consultar citas: " ++ pyStr e, Or.inl ?_⟩
          have hb : executeTool env (.consultar_citas a)
              = "❌ Error al consultar citas: " ++ pyStr e := by
            simp [executeTool, consultar_citas_arun, consultarCitasBody, hp, hm, henv,
              except_bind_error]
          rw [hb, show ("❌ Error al consultar citas: " : String)
                = "❌" ++ " Error al consultar citas: " from by decide, String.append_assoc]
        · refine ⟨" Debes proporcionar al menos un ID de paciente o médico", Or.inl ?_⟩
          have hb : executeTool env (.consultar_citas a)
              = "❌ Debes proporcionar al menos un ID de paciente o médico" := by
            simp [executeTool, consultar_citas_arun, consultarCitasBody, hp, hm]
          rw [hb]
          decide
  | consultar_historial_clinico a =>
      refine ⟨" Error al consultar historial: " ++ pyStr e, Or.inl ?_⟩
      have hb : executeTool env (.consultar_historial_clinico a)
          = "❌ Error al consultar historial: " ++ pyStr e := by
        simp [executeTool, consultar_historial_arun, consultarHistorialBody, henv,
          except_bind_error]
      rw [hb, show ("❌ Error al consultar historial: " : String)
            = "❌" ++ " Error al consultar historial: " from by decide, String.append_assoc]
  | consultar_disponibilidad_medico a =>
      refine ⟨" Error al consultar disponibilidad: " ++ pyStr e, Or.inl ?_⟩
      have hb : executeTool env (.consultar_disponibilidad_medico a)
          = "❌ Error al consultar disponibilidad: " ++ pyStr e := by
        simp [executeTool, consultar_disponibilidad_arun, consultarDisponibilidadBody, henv,
          except_bind_error]
      rw [hb, show ("❌ Error al consultar disponibilidad: " : String)
            = "❌" ++ " Error al consultar disponibilidad: " from by decide, String.append_assoc]
  | listar_medicos a =>
      refine ⟨" Error al listar médicos: " ++ pyStr e, Or.inl ?_⟩
      have hb : executeTool env (.listar_medicos a)
          = "❌ Error al listar médicos: " ++ pyStr e := by
        simp [executeTool, listar_medicos_arun, listarMedicosBody, henv, except_bind_error]
      rw [hb, show ("❌ Error al listar médicos: " : String)
            = "❌" ++ " Error al listar médicos: " from by decide, String.append_assoc]
  | validar_medico a =>
      refine ⟨" Error al validar médico: " ++ pyStr e, Or.inl ?_⟩
      have hb : executeTool env (.validar_medico a)
          = "❌ Error al validar médico: " ++ pyStr e := by
        simp [executeTool, validar_medico_arun, validarMedicoBody, henv, except_bind_error]
      rw [hb, show ("❌ Error al validar médico: " : String)
            = "❌" ++ " Error al validar médico: " from by decide, String.append_assoc]
  | determinar_tipo_usuario a =>
      refine ⟨" Error: " ++ pyStr e, Or.inl ?_⟩
      have hb : executeTool env (.determinar_tipo_usuario a) = "❌ Error: " ++ pyStr e := by
        simp [executeTool, determinar_tipo_usuario_arun, determinarTipoUsuarioBody, henv,
          except_bind_error]
      rw [hb, show ("❌ Error: " : String) = "❌" ++ " Error: " from by decide,
        String.append_assoc]
  | sugerir_horarios_alternativos a =>
      refine ⟨" Error: " ++ pyStr e, Or.inl ?_⟩
      have hb : executeTool env (.sugerir_horarios_alternativos a) = "❌ Error: " ++ pyStr e := by
        simp [executeTool, sugerir_horarios_arun, sugerirHorariosBody, henv, except_bind_error]
      rw [hb, show ("❌ Error: " : String) = "❌" ++ " Error: " from by decide,
        String.append_assoc]
  | registrar_cita a =>
      refine ⟨" Error: " ++ pyStr e, Or.inl ?_⟩
      have hb : executeTool env (.registrar_cita a) = "❌ Error: " ++ pyStr e := by
        simp [executeTool, registrar_cita_arun, registrarCitaBody, henv, except_bind_error]
      rw [hb, show ("❌ Error: " : String) = "❌" ++ " Error: " from by decide,
        String.append_assoc]
  | confirmar_cita a =>
      refine ⟨" Error: " ++ pyStr e, Or.inl ?_⟩
      have hb : executeTool env (.confirmar_cita a) = "❌ Error: " ++ pyStr e := by
        simp [executeTool, confirmar_cita_arun, confirmarCitaBody, henv, except_bind_error]
      rw [hb, show ("❌ Error: " : String) = "❌" ++ " Error: " from by decide,
        String.append_assoc]
  | registrar_interaccion_ia a =>
      refine ⟨" Error: " ++ pyStr e, Or.inr ?_⟩
      have hb : executeTool env (.registrar_interaccion_ia a) = "⚠️ Error: " ++ pyStr e := by
        simp [executeTool, registrar_interaccion_arun, registrarInteraccionBody, henv,
          except_bind_error]
      rw [hb, show ("⚠️ Error: " : String) = "⚠️" ++ " Error: " from by decide,
        String.append_assoc]

/-- C8 witness: a backend that raises on every call; the confirm-appointment
tool still returns an error string. -/
theorem c8_tools_never_raise_witness :
    ∃ t, executeTool (fun _ => Except.error (PyExc.backendError "Error del backend: 500"))
        (.confirmar_cita { id_cita := 1 }) = "❌" ++ t ∨
      executeTool (fun _ => Except.error (PyExc.backendError "Error del backend: 500"))
        (.confirmar_cita { id_cita := 1 }) = "⚠️" ++ t :=
  c8_tools_never_raise (fun _ => Except.error (PyExc.backendError "Error del backend: 500"))
    (PyExc.backendError "Error del backend: 500") (.confirmar_cita { id_cita := 1 })
    (fun _ => rfl)
